import Mathlib

/-!
# Blinc render-context engine

A shallow embedding of the render-context engine declared in
`src/toolchain/templates/rust/platforms/ios/BlincApp/Blinc-Bridging-Header.h`.
The repository snapshot contains only the C boundary declarations; the Rust
implementation behind them is not present, so each operation below is modelled
from the design spec's contracts.

A live context handle is modelled as `some ctx : Option RenderContext`; the
null pointer, or a handle whose context has been destroyed, is `none`.
Mutating entry points are state transformers `Option RenderContext →
Option RenderContext`; queries return a pair `(state after the call, result)`
so that freedom from side effects is a provable statement.  Widths and heights
are the `uint32` values crossing the boundary (modelled as `Nat`; no
arithmetic is performed on them), the `double`/`float` scale factor and touch
coordinates are modelled as `Rat`, and the touch phase crosses the boundary as
an `Int` (the C `int32_t`).
-/

/-- Modelled from the spec: a `TouchSession` of the Input Session Tracker
(the Rust implementation behind `blinc_handle_touch` is not in the snapshot).
Tracks one touch identifier's last known position. -/
structure TouchSession where
  id : Nat
  x : Rat
  y : Rat
  deriving DecidableEq

/-- Modelled from the spec: the per-surface `RenderContext` record behind the
opaque `IOSRenderContext*` handle — logical size, scale factor, dirty flag,
animation state (remaining time of each in-flight animation), focus flag and
the active touch set. -/
structure RenderContext where
  width : Nat
  height : Nat
  scale : Rat
  dirty : Bool
  animations : List Nat
  focused : Bool
  touches : List TouchSession
  deriving DecidableEq

/-- Modelled from the spec: the Animation Tracker's "at least one in-flight
animation" report. An animation is in-flight while remaining time is positive. -/
def animsInFlight (animations : List Nat) : Bool :=
  animations.any (fun d => decide (0 < d))

/-- Modelled from the spec: one scheduling step of the Animation Tracker —
every in-flight animation advances by the host-driven step, and finished
animations are removed. -/
def tickAnims (step : Nat) (animations : List Nat) : List Nat :=
  (animations.map (fun d => d - step)).filter (fun d => decide (0 < d))

/-- Modelled from the spec: `blinc_create_context` returns a freshly
allocated, dirty-by-default context (allocation failure, the only failure
mode, is outside the model). -/
def blinc_create_context (width height : Nat) (scale : Rat) : Option RenderContext :=
  some { width := width, height := height, scale := scale, dirty := true,
         animations := [], focused := false, touches := [] }

/-- Modelled from the spec: `blinc_destroy_context` releases the context; any
handle to it afterwards behaves as an invalid handle. -/
def blinc_destroy_context (_ : Option RenderContext) : Option RenderContext :=
  none

/-- Modelled from the spec: `blinc_needs_render` — true iff the dirty flag is
set or at least one animation is in flight; a pure query (the returned state
is the state after the call), and `false` on an invalid handle. -/
def blinc_needs_render (c : Option RenderContext) : Option RenderContext × Bool :=
  match c with
  | none => (none, false)
  | some ctx => (some ctx, ctx.dirty || animsInFlight ctx.animations)

/-- Modelled from the spec: `blinc_tick_animations` — advances all in-flight
animations by one host-driven scheduling step (the step size is the host's
clock advance for this tick) and returns true iff any animation is still in
flight after the tick; `false` and no-op on an invalid handle. -/
def blinc_tick_animations (step : Nat) (c : Option RenderContext) :
    Option RenderContext × Bool :=
  match c with
  | none => (none, false)
  | some ctx =>
    (some { ctx with animations := tickAnims step ctx.animations },
     animsInFlight (tickAnims step ctx.animations))

/-- Modelled from the spec: `blinc_build_frame` — performs the out-of-scope
frame construction, then clears the dirty flag; no-op on an invalid handle. -/
def blinc_build_frame (c : Option RenderContext) : Option RenderContext :=
  match c with
  | none => none
  | some ctx => some { ctx with dirty := false }

/-- Modelled from the spec: `blinc_mark_dirty` — unconditionally sets the
dirty flag; no-op on an invalid handle. -/
def blinc_mark_dirty (c : Option RenderContext) : Option RenderContext :=
  match c with
  | none => none
  | some ctx => some { ctx with dirty := true }

/-- Modelled from the spec: `blinc_update_size` — replaces stored dimensions
and scale factor and always marks the context dirty; zero width/height is
accepted; no-op on an invalid handle. -/
def blinc_update_size (width height : Nat) (scale : Rat) (c : Option RenderContext) :
    Option RenderContext :=
  match c with
  | none => none
  | some ctx => some { ctx with width := width, height := height,
                                scale := scale, dirty := true }

/-- Modelled from the spec: `blinc_get_width` — pure accessor for the
last-set logical width; the sentinel 0 on an invalid handle. -/
def blinc_get_width (c : Option RenderContext) : Option RenderContext × Nat :=
  match c with
  | none => (none, 0)
  | some ctx => (some ctx, ctx.width)

/-- Modelled from the spec: `blinc_get_height` — pure accessor for the
last-set logical height; the sentinel 0 on an invalid handle. -/
def blinc_get_height (c : Option RenderContext) : Option RenderContext × Nat :=
  match c with
  | none => (none, 0)
  | some ctx => (some ctx, ctx.height)

/-- Modelled from the spec: the four touch phases, a tagged variant
internally. -/
inductive TouchPhase where
  | Begin
  | Move
  | End
  | Cancel
  deriving DecidableEq

/-- Modelled from the spec: the boundary-side mapping from the wire `int32`
to the internal phase variant (the four phases map to/from small integers at
the boundary call site); values outside the defined set decode to `none`. -/
def decodePhase (phase : Int) : Option TouchPhase :=
  if phase = 0 then some TouchPhase.Begin
  else if phase = 1 then some TouchPhase.Move
  else if phase = 2 then some TouchPhase.End
  else if phase = 3 then some TouchPhase.Cancel
  else none

/-- Whether the active touch set contains a session for `id`. -/
def hasSession (id : Nat) (touches : List TouchSession) : Bool :=
  touches.any (fun t => t.id == id)

/-- Remove every session for `id` from the active touch set. -/
def removeSession (id : Nat) (touches : List TouchSession) : List TouchSession :=
  touches.filter (fun t => t.id != id)

/-- Update the position stored in the session for `id`. -/
def moveSession (id : Nat) (x y : Rat) (touches : List TouchSession) :
    List TouchSession :=
  touches.map (fun t => if t.id = id then { t with x := x, y := y } else t)

/-- Modelled from the spec: the Input Session Tracker's transition for one
decoded touch event. Begin creates a session, replacing any stale one with
the same id; Move updates position on an existing session and is ignored
otherwise; End/Cancel removes the session and is ignored for an unknown id.
Every transition that changes state marks the context dirty. -/
def applyTouch (id : Nat) (x y : Rat) (ph : TouchPhase) (ctx : RenderContext) :
    RenderContext :=
  match ph with
  | TouchPhase.Begin =>
      { ctx with touches := ⟨id, x, y⟩ :: removeSession id ctx.touches,
                 dirty := true }
  | TouchPhase.Move =>
      if hasSession id ctx.touches then
        { ctx with touches := moveSession id x y ctx.touches, dirty := true }
      else ctx
  | TouchPhase.End =>
      if hasSession id ctx.touches then
        { ctx with touches := removeSession id ctx.touches, dirty := true }
      else ctx
  | TouchPhase.Cancel =>
      if hasSession id ctx.touches then
        { ctx with touches := removeSession id ctx.touches, dirty := true }
      else ctx

/-- Modelled from the spec: `blinc_handle_touch` — decodes the wire phase and
applies the Input Session Tracker transition; a wire value outside the
defined phases, or an invalid handle, leaves everything unchanged. -/
def blinc_handle_touch (touch_id : Nat) (x y : Rat) (phase : Int)
    (c : Option RenderContext) : Option RenderContext :=
  match c with
  | none => none
  | some ctx =>
    match decodePhase phase with
    | none => some ctx
    | some ph => some (applyTouch touch_id x y ph ctx)

/-- Modelled from the spec: `blinc_set_focused` — records focus state, marks
dirty on change, no-op when the value is unchanged or the handle invalid. -/
def blinc_set_focused (focused : Bool) (c : Option RenderContext) :
    Option RenderContext :=
  match c with
  | none => none
  | some ctx =>
    if ctx.focused = focused then some ctx
    else some { ctx with focused := focused, dirty := true }

/-- The outbound native-call callback type: namespace, name and serialized
arguments in, an owned result string (or absence of a result) out. -/
def NativeCallFn : Type :=
  String → String → String → Option String

/-- Modelled from the spec: the Native Bridge's process-wide state — the
single registered outbound callback slot (`none` models a null callback /
no registration). -/
structure BridgeState where
  callback : Option NativeCallFn

/-- Modelled from the spec: `blinc_set_native_call_fn` — registers the
process-wide outbound callback; a new registration replaces the previous one
(last registration wins), and a null callback disables outbound calls. -/
def blinc_set_native_call_fn (call_fn : Option NativeCallFn) (_ : BridgeState) :
    BridgeState :=
  { callback := call_fn }

/-- Modelled from the spec: `blinc_native_bridge_is_ready` — true iff a
non-null callback is currently registered. -/
def blinc_native_bridge_is_ready (s : BridgeState) : Bool :=
  s.callback.isSome

/-- The per-context mutating boundary operations available on a live context
between a build and the next build: everything except `blinc_create_context`
and `blinc_destroy_context` (which change which contexts are live). -/
inductive Op where
  | markDirty
  | tickAnimations (step : Nat)
  | updateSize (width height : Nat) (scale : Rat)
  | handleTouch (touch_id : Nat) (x y : Rat) (phase : Int)
  | setFocused (focused : Bool)
  | buildFrame
  deriving DecidableEq

/-- Apply one boundary operation to a handle's state. -/
def applyOp (op : Op) (c : Option RenderContext) : Option RenderContext :=
  match op with
  | Op.markDirty => blinc_mark_dirty c
  | Op.tickAnimations step => (blinc_tick_animations step c).1
  | Op.updateSize w h s => blinc_update_size w h s c
  | Op.handleTouch id x y p => blinc_handle_touch id x y p c
  | Op.setFocused f => blinc_set_focused f c
  | Op.buildFrame => blinc_build_frame c

/-- Apply a sequence of boundary operations, first element first. -/
def applyOps (ops : List Op) (c : Option RenderContext) : Option RenderContext :=
  ops.foldl (fun c op => applyOp op c) c

/-- The handle's state after `n` repeated `blinc_tick_animations` calls with a
fixed host step. -/
def tickIter (step : Nat) : Nat → Option RenderContext → Option RenderContext
  | 0, c => c
  | n + 1, c => (blinc_tick_animations step (tickIter step n c)).1

/-- The boolean returned by the `k`-th (1-based) of a run of repeated
`blinc_tick_animations` calls with a fixed host step. -/
def kthTick (step k : Nat) (c : Option RenderContext) : Bool :=
  (blinc_tick_animations step (tickIter step (k - 1) c)).2

/-- A sample live context, as built by `blinc_create_context 390 844 3`. -/
def sampleCtx : RenderContext :=
  { width := 390, height := 844, scale := 3, dirty := true,
    animations := [], focused := false, touches := [] }

/-! ## Theorems -/

/-- C1: for every live context, `blinc_needs_render` returns true iff the
dirty flag is set or the animation tracker has at least one in-flight
animation, and the call leaves the context state unchanged (pure query). -/
theorem needs_render_pure_dirty_or_anim (ctx : RenderContext) :
    (blinc_needs_render (some ctx)).1 = some ctx ∧
    ((blinc_needs_render (some ctx)).2 = true ↔
      ctx.dirty = true ∨ animsInFlight ctx.animations = true) := by
  constructor
  · rfl
  · simp [blinc_needs_render]

/-- C2: for every live context, `blinc_build_frame` clears the dirty flag, so
`blinc_build_frame` followed immediately by `blinc_needs_render` — with no
animation in flight and no intervening event — returns false. -/
theorem build_frame_clears_dirty (ctx : RenderContext)
    (h : animsInFlight ctx.animations = false) :
    blinc_build_frame (some ctx) = some { ctx with dirty := false } ∧
    (blinc_needs_render (blinc_build_frame (some ctx))).2 = false := by
  constructor
  · rfl
  · simp [blinc_build_frame, blinc_needs_render, h]

/-- Witness for C2 at a concrete context with no animation in flight. -/
theorem build_frame_clears_dirty_witness :
    animsInFlight sampleCtx.animations = false ∧
    (blinc_build_frame (some sampleCtx) = some { sampleCtx with dirty := false } ∧
     (blinc_needs_render (blinc_build_frame (some sampleCtx))).2 = false) :=
  ⟨rfl, build_frame_clears_dirty sampleCtx rfl⟩

/-- C3: for every width, height and positive scale, a context freshly
returned by a successful `blinc_create_context` has its dirty flag set, so
`blinc_needs_render` on it returns true before any other operation. -/
theorem create_context_dirty_by_default (w h : Nat) (s : Rat) (hs : 0 < s) :
    (∃ ctx, blinc_create_context w h s = some ctx ∧ ctx.dirty = true) ∧
    (blinc_needs_render (blinc_create_context w h s)).2 = true := by
  refine ⟨⟨_, rfl, rfl⟩, ?_⟩
  simp [blinc_create_context, blinc_needs_render]

/-- Witness for C3 at `create(390, 844, 3.0)`. -/
theorem create_context_dirty_by_default_witness :
    (0 : Rat) < 3 ∧
    ((∃ ctx, blinc_create_context 390 844 3 = some ctx ∧ ctx.dirty = true) ∧
     (blinc_needs_render (blinc_create_context 390 844 3)).2 = true) :=
  ⟨by norm_num, create_context_dirty_by_default 390 844 3 (by norm_num)⟩

/-- C6: for every live context and every width, height (including zero) and
scale, `blinc_update_size` replaces the stored dimensions and scale and
unconditionally sets the dirty flag; after `update_size(handle, 0, 0, 1.0)`
the call has succeeded, `blinc_get_width` and `blinc_get_height` return 0,
and `blinc_needs_render` returns true. -/
theorem update_size_replaces_and_dirties (ctx : RenderContext) (w h : Nat) (s : Rat) :
    blinc_update_size w h s (some ctx) =
      some { ctx with width := w, height := h, scale := s, dirty := true } ∧
    (blinc_update_size 0 0 1 (some ctx)).isSome = true ∧
    (blinc_get_width (blinc_update_size 0 0 1 (some ctx))).2 = 0 ∧
    (blinc_get_height (blinc_update_size 0 0 1 (some ctx))).2 = 0 ∧
    (blinc_needs_render (blinc_update_size 0 0 1 (some ctx))).2 = true := by
  refine ⟨rfl, rfl, rfl, rfl, ?_⟩
  simp [blinc_update_size, blinc_needs_render]

/-- C8: for a null (or destroyed) context handle, every boundary operation is
a no-op that returns a harmless default — false from `blinc_needs_render` and
`blinc_tick_animations`, 0 from `blinc_get_width` and `blinc_get_height`. -/
theorem invalid_handle_noop_defaults (step w h id : Nat) (s x y : Rat)
    (p : Int) (b : Bool) (ctx : RenderContext) :
    blinc_needs_render none = (none, false) ∧
    blinc_tick_animations step none = (none, false) ∧
    blinc_get_width none = (none, 0) ∧
    blinc_get_height none = (none, 0) ∧
    blinc_build_frame none = none ∧
    blinc_mark_dirty none = none ∧
    blinc_update_size w h s none = none ∧
    blinc_handle_touch id x y p none = none ∧
    blinc_set_focused b none = none ∧
    blinc_destroy_context (some ctx) = none ∧
    (blinc_needs_render (blinc_destroy_context (some ctx))).2 = false ∧
    (blinc_tick_animations step (blinc_destroy_context (some ctx))).2 = false ∧
    (blinc_get_width (blinc_destroy_context (some ctx))).2 = 0 ∧
    (blinc_get_height (blinc_destroy_context (some ctx))).2 = 0 :=
  ⟨rfl, rfl, rfl, rfl, rfl, rfl, rfl, rfl, rfl, rfl, rfl, rfl, rfl, rfl⟩

/-- C9: `blinc_native_bridge_is_ready` is true iff the process-wide
registered callback is currently non-null; `blinc_set_native_call_fn` always
replaces the previous registration (last registration wins), and registering
a null callback makes the bridge not ready until a non-null one is set. -/
theorem bridge_last_registration_wins (s : BridgeState) (f g : Option NativeCallFn)
    (k : NativeCallFn) :
    (blinc_native_bridge_is_ready s = true ↔ s.callback ≠ none) ∧
    blinc_set_native_call_fn f (blinc_set_native_call_fn g s) =
      blinc_set_native_call_fn f s ∧
    blinc_native_bridge_is_ready (blinc_set_native_call_fn none s) = false ∧
    blinc_native_bridge_is_ready (blinc_set_native_call_fn (some k) s) = true := by
  refine ⟨?_, rfl, rfl, rfl⟩
  simp [blinc_native_bridge_is_ready, Option.isSome_iff_ne_none]

/-- C10: the touch phase crosses the boundary as an int32, so values outside
the four defined phases are representable; `blinc_handle_touch` with any such
out-of-range phase value leaves the entire context state unchanged. -/
theorem touch_out_of_range_phase_noop (ctx : RenderContext) (id : Nat)
    (x y : Rat) (p : Int) (hp : p < 0 ∨ 3 < p) :
    blinc_handle_touch id x y p (some ctx) = some ctx := by
  have hd : decodePhase p = none := by
    unfold decodePhase
    rw [if_neg (by omega), if_neg (by omega), if_neg (by omega),
        if_neg (by omega)]
  simp [blinc_handle_touch, hd]

/-- Witness for C10 at phase value 4 on a concrete context. -/
theorem touch_out_of_range_phase_noop_witness :
    ((4 : Int) < 0 ∨ (3 : Int) < 4) ∧
    blinc_handle_touch 7 10 10 4 (some sampleCtx) = some sampleCtx :=
  ⟨by norm_num, touch_out_of_range_phase_noop sampleCtx 7 10 10 4 (by norm_num)⟩

/-- No session for `id` survives `removeSession id`. -/
theorem hasSession_removeSession (id : Nat) (l : List TouchSession) :
    hasSession id (removeSession id l) = false := by
  induction l with
  | nil => rfl
  | cons a l ih =>
    by_cases h : a.id = id <;>
      simp_all [hasSession, removeSession, List.filter_cons, List.any_cons]

/-- C7: for every live context, `blinc_handle_touch` with phase Move or End
for an id that has no active session leaves the entire context state
unchanged, including the dirty flag; in particular Begin(id), End(id),
Move(id, x, y) ends in the same state as Begin(id), End(id) alone and does
not mark the context dirty. -/
theorem touch_unknown_session_noop (ctx : RenderContext) (id : Nat)
    (x y x0 y0 x1 y1 : Rat) (h : hasSession id ctx.touches = false) :
    blinc_handle_touch id x y 1 (some ctx) = some ctx ∧
    blinc_handle_touch id x y 2 (some ctx) = some ctx ∧
    blinc_handle_touch id x1 y1 1
        (blinc_handle_touch id x0 y0 2
          (blinc_handle_touch id x0 y0 0 (some ctx))) =
      blinc_handle_touch id x0 y0 2
        (blinc_handle_touch id x0 y0 0 (some ctx)) := by
  have hb : decodePhase 0 = some TouchPhase.Begin := rfl
  have hm : decodePhase 1 = some TouchPhase.Move := rfl
  have he : decodePhase 2 = some TouchPhase.End := rfl
  refine ⟨?_, ?_, ?_⟩
  · simp [blinc_handle_touch, hm, applyTouch, h]
  · simp [blinc_handle_touch, he, applyTouch, h]
  · simp only [blinc_handle_touch, hb, he, hm, applyTouch]
    have h1 : hasSession id
        (⟨id, x0, y0⟩ :: removeSession id ctx.touches) = true := by
      simp [hasSession, List.any_cons]
    have h2 : removeSession id (⟨id, x0, y0⟩ :: removeSession id ctx.touches) =
        removeSession id (removeSession id ctx.touches) := by
      simp [removeSession, List.filter_cons]
    simp only [h1, if_true]
    simp only [h2, hasSession_removeSession, Bool.false_eq_true, if_false]

/-- Witness for C7 at a concrete context with no session for id 7. -/
theorem touch_unknown_session_noop_witness :
    hasSession 7 sampleCtx.touches = false ∧
    (blinc_handle_touch 7 10 10 1 (some sampleCtx) = some sampleCtx ∧
     blinc_handle_touch 7 10 10 2 (some sampleCtx) = some sampleCtx ∧
     blinc_handle_touch 7 20 20 1
         (blinc_handle_touch 7 10 10 2
           (blinc_handle_touch 7 10 10 0 (some sampleCtx))) =
       blinc_handle_touch 7 10 10 2
         (blinc_handle_touch 7 10 10 0 (some sampleCtx))) :=
  ⟨rfl, touch_unknown_session_noop sampleCtx 7 10 10 10 10 20 20 rfl⟩

/-- `blinc_mark_dirty` composed with itself collapses to one call. -/
theorem mark_dirty_mark_dirty (c : Option RenderContext) :
    blinc_mark_dirty (blinc_mark_dirty c) = blinc_mark_dirty c := by
  cases c <;> rfl

/-- Any further `blinc_mark_dirty` calls after the first one are absorbed. -/
theorem applyOps_replicate_mark_dirty (n : Nat) :
    ∀ c, applyOps (List.replicate n Op.markDirty) (blinc_mark_dirty c) =
      blinc_mark_dirty c := by
  induction n with
  | zero => intro c; rfl
  | succ n ih =>
    intro c
    have : applyOps (List.replicate (n + 1) Op.markDirty) (blinc_mark_dirty c) =
        applyOps (List.replicate n Op.markDirty)
          (blinc_mark_dirty (blinc_mark_dirty c)) := by
      simp [List.replicate_succ, applyOps, applyOp]
    rw [this, ih, mark_dirty_mark_dirty]

/-- Every per-context operation other than `buildFrame` keeps a live context
live and preserves a set dirty flag. -/
theorem applyOp_preserves_dirty (op : Op) (ctx : RenderContext)
    (hop : op ≠ Op.buildFrame) (hd : ctx.dirty = true) :
    ∃ ctx', applyOp op (some ctx) = some ctx' ∧ ctx'.dirty = true := by
  cases op with
  | markDirty => exact ⟨_, rfl, rfl⟩
  | tickAnimations step => exact ⟨_, rfl, hd⟩
  | updateSize w h s => exact ⟨_, rfl, rfl⟩
  | handleTouch id x y p =>
    simp only [applyOp, blinc_handle_touch]
    cases hph : decodePhase p with
    | none => exact ⟨ctx, rfl, hd⟩
    | some ph =>
      refine ⟨applyTouch id x y ph ctx, rfl, ?_⟩
      cases ph <;> simp only [applyTouch] <;>
        first
        | exact rfl
        | (split
           · exact rfl
           · exact hd)
  | setFocused f =>
    simp only [applyOp, blinc_set_focused]
    split
    · exact ⟨ctx, rfl, hd⟩
    · exact ⟨_, rfl, rfl⟩
  | buildFrame => exact absurd rfl hop

/-- A sequence of per-context operations with no `buildFrame` preserves a set
dirty flag. -/
theorem applyOps_preserve_dirty (ops : List Op) :
    ∀ ctx : RenderContext, Op.buildFrame ∉ ops → ctx.dirty = true →
      ∃ ctx', applyOps ops (some ctx) = some ctx' ∧ ctx'.dirty = true := by
  induction ops with
  | nil => intro ctx _ hd; exact ⟨ctx, rfl, hd⟩
  | cons op ops ih =>
    intro ctx hmem hd
    have hop : op ≠ Op.buildFrame := fun he => hmem (he ▸ List.mem_cons_self op ops)
    have hmem' : Op.buildFrame ∉ ops := fun hin => hmem (List.mem_cons_of_mem op hin)
    obtain ⟨ctx1, h1, hd1⟩ := applyOp_preserves_dirty op ctx hop hd
    obtain ⟨ctx2, h2, hd2⟩ := ih ctx1 hmem' hd1
    refine ⟨ctx2, ?_, hd2⟩
    simp only [applyOps, List.foldl_cons] at h2 ⊢
    rw [h1]
    exact h2

/-- C4: for every live context and every N ≥ 1, calling `blinc_mark_dirty`
N times yields the same context state as calling it once (idempotence), and
after any mark_dirty, `blinc_needs_render` returns true at every point until
the next `blinc_build_frame` (that is, after any further sequence of
per-context operations that does not include `buildFrame`). -/
theorem mark_dirty_idempotent_sticky (ctx : RenderContext) (N : Nat)
    (ops : List Op) (hN : 1 ≤ N) (hops : Op.buildFrame ∉ ops) :
    applyOps (List.replicate N Op.markDirty) (some ctx) =
      blinc_mark_dirty (some ctx) ∧
    (blinc_needs_render (applyOps ops (blinc_mark_dirty (some ctx)))).2 = true := by
  constructor
  · obtain ⟨M, rfl⟩ : ∃ M, N = M + 1 := ⟨N - 1, by omega⟩
    have : applyOps (List.replicate (M + 1) Op.markDirty) (some ctx) =
        applyOps (List.replicate M Op.markDirty) (blinc_mark_dirty (some ctx)) := by
      simp [List.replicate_succ, applyOps, applyOp]
    rw [this, applyOps_replicate_mark_dirty]
  · have hd : ({ ctx with dirty := true } : RenderContext).dirty = true := rfl
    obtain ⟨ctx', h', hd'⟩ := applyOps_preserve_dirty ops { ctx with dirty := true } hops hd
    have hshow : blinc_mark_dirty (some ctx) = some { ctx with dirty := true } := rfl
    rw [hshow, h']
    simp [blinc_needs_render, hd']

/-- Witness for C4 with N = 3 and two non-build operations after the mark. -/
theorem mark_dirty_idempotent_sticky_witness :
    1 ≤ 3 ∧ Op.buildFrame ∉ [Op.setFocused true, Op.tickAnimations 16] ∧
    (applyOps (List.replicate 3 Op.markDirty) (some sampleCtx) =
       blinc_mark_dirty (some sampleCtx) ∧
     (blinc_needs_render (applyOps [Op.setFocused true, Op.tickAnimations 16]
        (blinc_mark_dirty (some sampleCtx)))).2 = true) :=
  ⟨by decide, by decide,
   mark_dirty_idempotent_sticky sampleCtx 3 [Op.setFocused true, Op.tickAnimations 16]
     (by decide) (by decide)⟩

/-- Ticking an empty animation set produces an empty animation set. -/
theorem tickAnims_nil (step : Nat) : tickAnims step [] = [] := rfl

/-- No animation is in flight in an empty animation set. -/
theorem animsInFlight_nil : animsInFlight [] = false := rfl

/-- One tick of a single animation with remaining time `r`. -/
theorem tickAnims_single (step r : Nat) :
    tickAnims step [r] = if 0 < r - step then [r - step] else [] := by
  by_cases h : 0 < r - step <;> simp [tickAnims, h]

/-- Closed form for repeated ticking of a context holding one animation of
remaining duration `D`. -/
theorem tickIter_single (S D : Nat) (hD : 0 < D) (ctx : RenderContext)
    (h : ctx.animations = [D]) :
    ∀ n, tickIter S n (some ctx) =
      some { ctx with animations := if n * S < D then [D - n * S] else [] } := by
  intro n
  induction n with
  | zero =>
    simp only [tickIter, Nat.zero_mul, Nat.sub_zero, if_pos hD]
    rw [← h]
  | succ n ih =>
    simp only [tickIter]
    rw [ih]
    simp only [blinc_tick_animations]
    have hsm : (n + 1) * S = n * S + S := Nat.succ_mul n S
    by_cases hn : n * S < D
    · rw [if_pos hn, tickAnims_single]
      have e1 : D - n * S - S = D - (n + 1) * S := by omega
      rw [e1]
      by_cases hn1 : (n + 1) * S < D
      · have hpos : 0 < D - (n + 1) * S := by omega
        rw [if_pos hn1, if_pos hpos]
      · have hz : ¬ 0 < D - (n + 1) * S := by omega
        rw [if_neg hn1, if_neg hz]
    · have hn1 : ¬ (n + 1) * S < D := by omega
      rw [if_neg hn, if_neg hn1, tickAnims_nil]

/-- The boolean of the `k`-th tick of a single animation of duration `D`. -/
theorem kthTick_single (S D k : Nat) (hS : 0 < S) (hD : 0 < D) (hk : 1 ≤ k)
    (ctx : RenderContext) (h : ctx.animations = [D]) :
    (kthTick S k (some ctx) = true) ↔ k * S < D := by
  obtain ⟨j, rfl⟩ : ∃ j, k = j + 1 := ⟨k - 1, by omega⟩
  simp only [kthTick, Nat.add_sub_cancel]
  rw [tickIter_single S D hD ctx h j]
  simp only [blinc_tick_animations]
  have hsm : (j + 1) * S = j * S + S := Nat.succ_mul j S
  by_cases hj : j * S < D
  · rw [if_pos hj, tickAnims_single]
    have e1 : D - j * S - S = D - (j + 1) * S := by omega
    rw [e1]
    by_cases hj1 : (j + 1) * S < D
    · have hpos : 0 < D - (j + 1) * S := by omega
      rw [if_pos hpos]
      simp [animsInFlight, hpos, hj1]
    · have hz : ¬ 0 < D - (j + 1) * S := by omega
      rw [if_neg hz]
      simp [animsInFlight, hj1]
  · have hj1 : ¬ (j + 1) * S < D := by omega
    rw [if_neg hj, tickAnims_nil]
    simp [animsInFlight, hj1]

/-- `k * S < D` says exactly that `k` is at most `⌈D/S⌉ - 1`. -/
theorem mul_lt_iff_le_pred_ceil (S D k : Nat) (hS : 0 < S) (hD : 0 < D) :
    k * S < D ↔ k ≤ (D + S - 1) / S - 1 := by
  have h1 : D + S - 1 = (D - 1) + S := by omega
  rw [h1, Nat.add_div_right _ hS, Nat.add_sub_cancel, Nat.le_div_iff_mul_le hS]
  omega

/-- C5: for every live context with zero in-flight animations,
`blinc_tick_animations` is a no-op returning false; for a context with
exactly one animation of finite duration `D` stepped by `S` per tick,
repeated `blinc_tick_animations` returns true for exactly `⌈D/S⌉ - 1`
consecutive calls (the `k`-th call returns true iff `k ≤ ⌈D/S⌉ - 1`) and
false on every call thereafter. -/
theorem tick_animations_termination (D S : Nat) (hD : 0 < D) (hS : 0 < S) :
    (∀ ctx : RenderContext, ctx.animations = [] →
        blinc_tick_animations S (some ctx) = (some ctx, false)) ∧
    (∀ ctx : RenderContext, ctx.animations = [D] → ∀ k, 1 ≤ k →
        ((kthTick S k (some ctx) = true) ↔ k ≤ (D + S - 1) / S - 1)) := by
  constructor
  · intro ctx h
    simp only [blinc_tick_animations]
    rw [h, tickAnims_nil, animsInFlight_nil, ← h]
  · intro ctx h k hk
    rw [kthTick_single S D k hS hD hk ctx h, mul_lt_iff_le_pred_ceil S D k hS hD]

/-- Witness for C5 with duration 10 and step 3: the first tick reports an
animation still in flight (`⌈10/3⌉ - 1 = 3 ≥ 1`), and ticking an
animation-free context is a no-op returning false. -/
theorem tick_animations_termination_witness :
    0 < 10 ∧ 0 < 3 ∧
    blinc_tick_animations 3 (some sampleCtx) = (some sampleCtx, false) ∧
    ((kthTick 3 1 (some { sampleCtx with animations := [10] }) = true) ↔
      1 ≤ (10 + 3 - 1) / 3 - 1) :=
  ⟨by decide, by decide,
   (tick_animations_termination 10 3 (by decide) (by decide)).1 sampleCtx rfl,
   (tick_animations_termination 10 3 (by decide) (by decide)).2
     { sampleCtx with animations := [10] } rfl 1 (by decide)⟩
